import Mathlib

/-!
# OpenVC — formal model of `src/OpenVC.py`

A shallow embedding of the OpenVc voice-chat script: the wake-word
patterns (`stop_pattern` / `start_pattern`), the `__main__` wake-word
loop with its `listening_enabled` flag, and the three helpers
`process_voice_input`, `text_to_speech` and `query_llm`.

Transcripts and other strings are modelled as `List Char`.  External
effects (microphone, HTTP, playback) are modelled by explicit outcome
parameters; the calls a loop iteration makes to the chat endpoint and
the speaker are recorded as an event list.
-/

namespace OpenVC

/-- ASCII model of the regex word character `\w`: `[A-Za-z0-9_]`.
(`Char.isAlphanum` covers exactly the ASCII letters and digits.) -/
def isWordChar (c : Char) : Bool := c.isAlphanum || c == '_'

/-- A non-word character, i.e. what `\W` matches. -/
def nonWord (c : Char) : Bool := !(isWordChar c)

/-- Hand-compiled matcher for the anchored pattern `^\W*tok\W*$` with
`re.IGNORECASE`, for a literal token `tok` made of word characters
(here `stop` / `start`).

Compilation argument: `\W` never matches a word character and the
token starts with one, so in any match the greedy `^\W*` consumes
exactly the maximal leading run of non-word characters; the literal
must then match case-insensitively at that position, and `\W*$`
forces the remainder of the string to be all non-word characters.
(A trailing newline, the only position other than end-of-string that
`$` accepts, is itself a non-word character, so `$` and `\Z` coincide
for this pattern.) -/
def patternMatch (tok : List Char) (s : List Char) : Bool :=
  let rest := s.dropWhile nonWord
  ((rest.take tok.length).map Char.toLower == tok)
    && (rest.drop tok.length).all nonWord

/-- `re.compile(r'^\W*stop\W*$', re.IGNORECASE)` applied via `.match`
(the pattern is `$`-anchored, so `.match` is a whole-string match),
source line 179. -/
def stop_pattern (s : List Char) : Bool := patternMatch "stop".data s

/-- `re.compile(r'^\W*start\W*$', re.IGNORECASE)` applied via `.match`,
source line 180. -/
def start_pattern (s : List Char) : Bool := patternMatch "start".data s

/-- The spec's description of the wake-word test, stated independently
of the regex: the transcript trimmed of surrounding non-word
characters. -/
def trimNonWord (s : List Char) : List Char :=
  ((s.dropWhile nonWord).reverse.dropWhile nonWord).reverse

/-- Trim surrounding non-word characters, then fold case. -/
def lowerTrim (s : List Char) : List Char :=
  (trimNonWord s).map Char.toLower

/-- The spec's `WakeWordMatcher` classification values. -/
inductive WakeWord
  | Stop
  | Start
  | Other
deriving DecidableEq, Repr

/-- The spec's `WakeWordMatcher.classify`: the classification induced
by the two source patterns (they are mutually exclusive, so the order
of the two tests does not matter). -/
def classify (t : List Char) : WakeWord :=
  if stop_pattern t then WakeWord.Stop
  else if start_pattern t then WakeWord.Start
  else WakeWord.Other

/-- `listening_enabled = True`, source line 182. -/
def listening_enabled_init : Bool := true

/-- The acknowledgement spoken on pausing, source line 192.  Note the
typographic quotes U+2018/U+2019 around `start`, exactly as in the
source. -/
def stopAckText : List Char := "Voice chat stopped. Say ‘start’ to resume.".data

/-- The acknowledgement spoken on resuming, source line 197. -/
def startAckText : List Char := "Voice chat resumed.".data

/-- The ASCII apostrophe, spelled via its code point. -/
def apostrophe : Char := Char.ofNat 39

/-- The pause acknowledgement as the spec quotes it: with ASCII
apostrophes (code point 39) around `start` where the source has the
typographic quotes U+2018/U+2019. -/
def specStopAckText : List Char :=
  "Voice chat stopped. Say ".data ++ [apostrophe] ++ "start".data
    ++ [apostrophe] ++ " to resume.".data

/-- An observable downstream call made by a loop iteration:
`chat prompt` is a `query_llm` invocation, `speak text` a
`text_to_speech` invocation. -/
inductive Call
  | chat (prompt : List Char)
  | speak (text : List Char)
deriving DecidableEq, Repr

/-- One iteration of the `while True` wake-word loop, source lines
185–205, given the transcript `raw` returned by `process_voice_input`
and the LLM reply function `llm` (the remote model's behaviour on this
turn).  Returns the `listening_enabled` flag after the iteration and
the list of downstream calls the iteration made, in order. -/
def loopStep (llm : List Char → List Char) (listening_enabled : Bool)
    (raw : List Char) : Bool × List Call :=
  if raw.isEmpty then (listening_enabled, [])
  else if listening_enabled && stop_pattern raw then
    (false, [Call.speak stopAckText])
  else if !listening_enabled && start_pattern raw then
    (true, [Call.speak startAckText])
  else if listening_enabled then
    (listening_enabled, [Call.chat raw, Call.speak (llm raw)])
  else
    (listening_enabled, [])

/-- Run the wake-word loop over a list of transcripts, accumulating
the downstream calls of every iteration. -/
def runTranscripts (llm : List Char → List Char) :
    Bool → List (List Char) → Bool × List Call
  | l, [] => (l, [])
  | l, raw :: rest =>
    let step := loopStep llm l raw
    let next := runTranscripts llm step.1 rest
    (next.1, step.2 ++ next.2)

/-- The acknowledgement Speaker calls among a list of downstream
calls: those speaking the fixed pause or resume text. -/
def ackCalls (calls : List Call) : List Call :=
  calls.filter (fun c => c == Call.speak stopAckText || c == Call.speak startAckText)

/-- Outcome of an HTTP request whose response body is used as plain
text (`r.text`): either `requests.post` itself raised, or a response
with a status code and body text came back. -/
inductive TextHttpOutcome
  | transportError
  | response (status : Nat) (body : List Char)

/-- `r.raise_for_status()` raises `HTTPError` exactly for the 4xx and
5xx status codes. -/
def raiseForStatus (status : Nat) : Bool := decide (400 ≤ status ∧ status < 600)

/-- A 2xx (success) status code; used to state claims about "non-2xx"
statuses. -/
def is2xx (status : Nat) : Bool := decide (200 ≤ status ∧ status < 300)

/-- Python's `str.strip()` on the ASCII whitespace the model covers. -/
def pyStrip (s : List Char) : List Char :=
  ((s.dropWhile Char.isWhitespace).reverse.dropWhile Char.isWhitespace).reverse

/-- The exceptions `process_voice_input` can let escape: only the two
statements that run before the `try` around `recognizer.listen`. -/
inductive CaptureRaise
  | micOpen
  | ambient
deriving DecidableEq, Repr

/-- Environment of one `process_voice_input` call: which of the
microphone stages fail (`sr.Microphone()` context entry,
`adjust_for_ambient_noise`, `listen` — the latter covers both
`WaitTimeoutError` and device errors raised while listening), and the
outcome of the STT HTTP request. -/
structure CaptureEnv where
  micOpenFails : Bool
  ambientFails : Bool
  listenFails : Bool
  sttOutcome : TextHttpOutcome

/-- `process_voice_input`, source lines 53–100.  `sr.Microphone()` and
`adjust_for_ambient_noise` run outside the `try`, so their failures
escape; `recognizer.listen` failures are caught and return `""`; the
whole STT upload (`requests.post`, `raise_for_status`) sits in a
`try/except Exception` that logs and leaves `text = ""`; on success
the result is `r.text.strip()`.  (The `prompt.wav` write is assumed to
succeed; the `finally: os.remove` keeps no state worth modelling.) -/
def process_voice_input (env : CaptureEnv) : Except CaptureRaise (List Char) :=
  if env.micOpenFails then Except.error CaptureRaise.micOpen
  else if env.ambientFails then Except.error CaptureRaise.ambient
  else if env.listenFails then Except.ok []
  else match env.sttOutcome with
    | TextHttpOutcome.transportError => Except.ok []
    | TextHttpOutcome.response status body =>
      if raiseForStatus status then Except.ok []
      else Except.ok (pyStrip body)

/-- Observable result of one `text_to_speech` call: whether an
exception escaped the call, whether playback ran to completion, and
whether the temporary `speech.wav` is still on disk when the call
exits. -/
structure SpeakResult where
  raised : Bool
  played : Bool
  fileLeft : Bool
deriving DecidableEq, Repr

/-- `text_to_speech`, source lines 107–130, as a function of the TTS
response status and of whether decoding/playback
(`AudioSegment.from_wav` / `play`) raises.  On status 200 the body is
written to `speech.wav`, then played, then the file is unlinked — the
unlink is skipped when playback raises, because no cleanup block
guards it.  On any other status the error is logged and nothing else
happens. -/
def text_to_speech (status : Nat) (playbackRaises : Bool) : SpeakResult :=
  if status == 200 then
    if playbackRaises then
      ⟨true, false, true⟩
    else
      ⟨false, true, false⟩
  else
    ⟨false, false, false⟩

/-- Outcome of the chat-completion HTTP request: transport failure, or
a response with a status code and `some content` when
`r.json()['choices'][0]['message']['content']` is extractable (`none`
when JSON decoding or the lookup path raises). -/
inductive ChatOutcome
  | transportError
  | response (status : Nat) (content : Option (List Char))

/-- The exceptions `query_llm` can let escape — it contains no
`try/except` at all. -/
inductive ChatRaise
  | transport
  | httpStatus (status : Nat)
  | badBody
deriving DecidableEq, Repr

/-- `sys_msg`, source lines 39–43. -/
def sys_msg : List Char :=
  ("You are OpenVc, an open-source, cloud-powered voice chat system template. "
    ++ "You receive spoken prompts via STT (Whisper) and reply via TTS (PlayAI). "
    ++ "Keep messages short and simple for voice chat.").data

/-- `prompt_sys` as built in `query_llm`, source lines 143–145: the
system message, with the sentence naming the user appended when
`recognized_user_name` is non-empty.  (The apostrophe of the suffix is
spelled via its code point.) -/
def prompt_sys (recognized_user_name : List Char) : List Char :=
  if recognized_user_name.isEmpty then sys_msg
  else sys_msg ++ " The user".data ++ [apostrophe] ++ "s name is ".data
    ++ recognized_user_name ++ ".".data

/-- `query_llm`, source lines 137–163, as a function of the global
user name, the prompt, and the chat HTTP outcome.  Returns the system
message it sends (first component; the payload also carries the model
name, `max_tokens = 64` and `temperature = 0.7`, which no claim
touches) paired with the user message, and the result: the stripped
reply content, or the exception that escapes — `requests.post`
raising, `raise_for_status` on 4xx/5xx, or the body extraction
failing.  Nothing is caught locally. -/
def query_llm (recognized_user_name prompt : List Char) (out : ChatOutcome) :
    (List Char × List Char) × Except ChatRaise (List Char) :=
  ((prompt_sys recognized_user_name, prompt),
    match out with
    | ChatOutcome.transportError => Except.error ChatRaise.transport
    | ChatOutcome.response status content =>
      if raiseForStatus status then Except.error (ChatRaise.httpStatus status)
      else match content with
        | none => Except.error ChatRaise.badBody
        | some reply => Except.ok (pyStrip reply))

/-! ## Helper lemmas -/

/-- `Char.toLower` maps only `A`–`Z` (to `a`–`z`), so a character
whose lowercase form is a word character is itself one. -/
theorem isWordChar_of_toLower (c : Char) (h : isWordChar (Char.toLower c) = true) :
    isWordChar c = true := by
  simp only [Char.toLower] at h
  split at h
  next hn =>
    obtain ⟨h1, h2⟩ := hn
    have g1 : (65 : UInt32) ≤ c.val := by
      rw [UInt32.le_def, BitVec.le_def]
      simpa [Char.toNat, UInt32.toNat] using h1
    have g2 : c.val ≤ (90 : UInt32) := by
      rw [UInt32.le_def, BitVec.le_def]
      simpa [Char.toNat, UInt32.toNat] using h2
    simp [isWordChar, Char.isAlphanum, Char.isAlpha, Char.isUpper, g1, g2]
  next => exact h

/-- The hand-compiled `^\W*tok\W*$` matcher agrees with
"trim surrounding non-word characters, fold case, compare", for any
token ending in a word character. -/
theorem patternMatch_iff_lowerTrim (tok s : List Char) (t : List Char) (c : Char)
    (htok : tok = t ++ [c]) (hc : isWordChar c = true) :
    patternMatch tok s = true ↔ lowerTrim s = tok := by
  simp only [patternMatch, lowerTrim, trimNonWord, Bool.and_eq_true, beq_iff_eq,
    List.all_eq_true]
  set q := s.dropWhile nonWord with hq
  constructor
  · rintro ⟨hA, hB⟩
    rw [htok, List.map_eq_append_iff] at hA
    obtain ⟨A', a2, hsplit, hA', ha2⟩ := hA
    rw [← htok] at hsplit
    obtain ⟨a, rfl, hac⟩ : ∃ a, a2 = [a] ∧ Char.toLower a = c := by
      cases a2 with
      | nil => simp at ha2
      | cons x xs =>
        cases xs with
        | nil => simp at ha2; exact ⟨x, rfl, ha2⟩
        | cons y ys => simp at ha2
    have hWa : nonWord a = false := by
      have : isWordChar a = true := isWordChar_of_toLower a (by rw [hac]; exact hc)
      simp [nonWord, this]
    have hBrev : ∀ x ∈ (q.drop tok.length).reverse, nonWord x = true := by
      intro x hx; rw [List.mem_reverse] at hx; exact hB x hx
    have hq2 : q.reverse = (q.drop tok.length).reverse ++ (a :: A'.reverse) := by
      conv_lhs => rw [← List.take_append_drop tok.length q]
      rw [hsplit]
      simp [List.reverse_append]
    rw [hq2, List.dropWhile_append_of_pos hBrev, List.dropWhile_cons]
    simp only [hWa, if_false, Bool.false_eq_true]
    simp [hA', hac, htok]
  · intro h
    have hDK : q.reverse.takeWhile nonWord ++ q.reverse.dropWhile nonWord = q.reverse :=
      List.takeWhile_append_dropWhile nonWord q.reverse
    have hq3 : q = (q.reverse.dropWhile nonWord).reverse
        ++ (q.reverse.takeWhile nonWord).reverse := by
      rw [← List.reverse_append, hDK, List.reverse_reverse]
    have hlenK : ((q.reverse.dropWhile nonWord).reverse).length = tok.length := by
      rw [← h]; simp
    constructor
    · rw [hq3, ← hlenK, List.take_left]; exact h
    · rw [hq3, ← hlenK, List.drop_left]
      intro x hx
      rw [List.mem_reverse] at hx
      exact List.mem_takeWhile_imp hx

/-- `stop_pattern` specialisation of the matcher equivalence. -/
theorem stop_pattern_iff (s : List Char) :
    stop_pattern s = true ↔ lowerTrim s = "stop".data :=
  patternMatch_iff_lowerTrim "stop".data s "sto".data 'p' (by decide) (by decide)

/-- `start_pattern` specialisation of the matcher equivalence. -/
theorem start_pattern_iff (s : List Char) :
    start_pattern s = true ↔ lowerTrim s = "start".data :=
  patternMatch_iff_lowerTrim "start".data s "star".data 't' (by decide) (by decide)

/-- No transcript matches both wake-word patterns. -/
theorem stop_start_exclusive (s : List Char) :
    ¬(stop_pattern s = true ∧ start_pattern s = true) := by
  rintro ⟨h1, h2⟩
  rw [stop_pattern_iff] at h1
  rw [start_pattern_iff] at h2
  rw [h1] at h2
  exact absurd h2 (by decide)

/-- A transcript matching `stop_pattern` is non-empty. -/
theorem stop_pattern_ne_empty (s : List Char) (h : stop_pattern s = true) :
    s.isEmpty = false := by
  cases s with
  | nil => exact absurd h (by decide)
  | cons x xs => rfl

/-- A transcript matching `start_pattern` is non-empty. -/
theorem start_pattern_ne_empty (s : List Char) (h : start_pattern s = true) :
    s.isEmpty = false := by
  cases s with
  | nil => exact absurd h (by decide)
  | cons x xs => rfl

/-! ## Claims -/

/-- C1: the session's listening flag starts `true`, and across every
iteration of the main loop it flips from `true` to `false` exactly
when the transcript, ignoring surrounding non-word characters and
case, is the word "stop" while the flag is `true`, and flips from
`false` to `true` exactly when the transcript is correspondingly the
word "start" while the flag is `false`; every other transcript leaves
the flag unchanged (the flag is a `Bool`, so "did not flip" is
"unchanged"). -/
theorem listening_flag_invariant :
    listening_enabled_init = true ∧
    ∀ (llm : List Char → List Char) (l : Bool) (raw : List Char),
      ((loopStep llm l raw).1 = !l) ↔
        ((l = true ∧ lowerTrim raw = "stop".data) ∨
         (l = false ∧ lowerTrim raw = "start".data)) := by
  refine ⟨rfl, ?_⟩
  intro llm l raw
  by_cases he : raw.isEmpty
  · have hraw : raw = [] := by
      cases raw with
      | nil => rfl
      | cons x xs => simp at he
    subst hraw
    have hstep : loopStep llm l [] = (l, []) := by cases l <;> rfl
    rw [hstep]
    cases l <;> decide
  · cases l with
    | true =>
      by_cases hs : stop_pattern raw
      · have hlt := (stop_pattern_iff raw).mp hs
        simp [loopStep, he, hs, hlt]
      · have hlt : ¬(lowerTrim raw = "stop".data) :=
          fun hh => hs ((stop_pattern_iff raw).mpr hh)
        simp [loopStep, he, hs, hlt]
    | false =>
      by_cases hs : start_pattern raw
      · have hlt := (start_pattern_iff raw).mp hs
        simp [loopStep, he, hs, hlt]
      · have hlt : ¬(lowerTrim raw = "start".data) :=
          fun hh => hs ((start_pattern_iff raw).mpr hh)
        simp [loopStep, he, hs, hlt]

/-- C2: for every transcript `t`, the wake-word classification is
`Stop` iff `t`, trimmed of surrounding non-word characters and
compared case-insensitively, equals exactly the word "stop", and
`Start` iff it so reduces to "start"; in particular "Stop." → `Stop`,
"please stop" → `Other`, "STOP" → `Stop`. -/
theorem classify_stop_start_iff :
    (∀ t : List Char,
      (classify t = WakeWord.Stop ↔ lowerTrim t = "stop".data) ∧
      (classify t = WakeWord.Start ↔ lowerTrim t = "start".data)) ∧
    classify "Stop.".data = WakeWord.Stop ∧
    classify "please stop".data = WakeWord.Other ∧
    classify "STOP".data = WakeWord.Stop := by
  refine ⟨?_, by decide, by decide, by decide⟩
  intro t
  constructor
  · by_cases hs : stop_pattern t
    · simp [classify, hs, (stop_pattern_iff t).mp hs]
    · have h1 : ¬(lowerTrim t = "stop".data) :=
        fun hh => hs ((stop_pattern_iff t).mpr hh)
      by_cases h2 : start_pattern t <;> simp [classify, hs, h2, h1]
  · by_cases h2 : start_pattern t
    · have hs : ¬(stop_pattern t = true) :=
        fun hc => stop_start_exclusive t ⟨hc, h2⟩
      simp [classify, hs, h2, (start_pattern_iff t).mp h2]
    · have h1 : ¬(lowerTrim t = "start".data) :=
        fun hh => h2 ((start_pattern_iff t).mpr hh)
      by_cases hs : stop_pattern t <;> simp [classify, hs, h2, h1]

/-- C10: no transcript matches both `^\W*stop\W*$` and `^\W*start\W*$`,
so the classification into `Stop`, `Start`, `Other` is well defined
and a loop iteration never emits both acknowledgements. -/
theorem wake_patterns_mutually_exclusive :
    (∀ t : List Char, stop_pattern t = false ∨ start_pattern t = false) ∧
    ∀ (llm : List Char → List Char) (l : Bool) (raw : List Char),
      (ackCalls (loopStep llm l raw).2).length ≤ 1 := by
  constructor
  · intro t
    cases hs : stop_pattern t
    · exact Or.inl rfl
    · cases hst : start_pattern t
      · exact Or.inr rfl
      · exact absurd ⟨hs, hst⟩ (stop_start_exclusive t)
  · intro llm l raw
    by_cases he : raw.isEmpty
    · simp [loopStep, he, ackCalls]
    · by_cases hs : (l && stop_pattern raw)
      · simp [loopStep, he, hs, ackCalls]
      · by_cases hst : (!l && start_pattern raw)
        · simp [loopStep, he, hs, hst, ackCalls]
        · by_cases hl : l = true
          · subst hl
            have hspat : stop_pattern raw = false := by
              cases hsp : stop_pattern raw
              · rfl
              · exact absurd (by simp [hsp]) hs
            have hstep : (loopStep llm true raw).2
                = [Call.chat raw, Call.speak (llm raw)] := by
              simp [loopStep, he, hspat]
            rw [hstep]
            by_cases hb1 : llm raw = stopAckText
            · simp [ackCalls, hb1]
            · by_cases hb2 : llm raw = startAckText
              · simp [ackCalls, hb2]
              · simp [ackCalls, hb1, hb2]
          · have hl' : l = false := by
              cases l
              · rfl
              · exact absurd rfl hl
            subst hl'
            have hstpat : start_pattern raw = false := by
              cases hsp : start_pattern raw
              · rfl
              · exact absurd (by simp [hsp]) hst
            simp [loopStep, he, hstpat, ackCalls]

/-- C3 (counterexample): on transcript "Stop" in the listening state,
the loop speaks the source's acknowledgement string — which carries
typographic quotes U+2018/U+2019 around `start` — and that string is
not the ASCII-apostrophe string "Voice chat stopped. Say 'start' to
resume." the claim quotes, so the Speaker is not invoked with the
claimed text. -/
theorem stop_ack_uses_typographic_quotes :
    loopStep (fun _ => []) true "Stop".data = (false, [Call.speak stopAckText]) ∧
    stopAckText ≠ specStopAckText := by
  constructor
  · rfl
  · decide

/-- C3 (amended): given state `Listening` and a transcript matching
the Stop pattern, the loop invokes the Speaker exactly once, with the
source's acknowledgement text "Voice chat stopped. Say ‘start’ to
resume." (typographic quotes), does not invoke the ChatClient, and
the resulting state is `Paused`. -/
theorem stop_while_listening (llm : List Char → List Char) (raw : List Char)
    (h : stop_pattern raw = true) :
    loopStep llm true raw = (false, [Call.speak stopAckText]) := by
  have he : raw.isEmpty = false := stop_pattern_ne_empty raw h
  simp [loopStep, he, h]

/-- C3 (witness): the amended theorem applied at transcript "Stop". -/
theorem stop_while_listening_witness :
    loopStep (fun _ => []) true "Stop".data = (false, [Call.speak stopAckText]) :=
  stop_while_listening (fun _ => []) "Stop".data (by decide)

/-- C4: while the flag is `false` (state `Paused`), every transcript
other than an exact "start" match is discarded with no downstream
call and the state stays `Paused`; in particular two consecutive
"stop" transcripts while paused are both no-ops. -/
theorem paused_discards_non_start :
    (∀ (llm : List Char → List Char) (raw : List Char),
      start_pattern raw = false → loopStep llm false raw = (false, [])) ∧
    ∀ llm : List Char → List Char,
      runTranscripts llm false ["stop".data, "stop".data] = (false, []) := by
  constructor
  · intro llm raw h
    by_cases he : raw.isEmpty
    · have hraw : raw = [] := by
        cases raw with
        | nil => rfl
        | cons x xs => simp at he
      subst hraw
      rfl
    · simp [loopStep, he, h]
  · intro llm
    rfl

/-- C4 (witness): the no-op component applied at the paused-state
transcript "banana" of the spec's scenario 3. -/
theorem paused_discards_non_start_witness :
    loopStep (fun _ => []) false "banana".data = (false, []) :=
  paused_discards_non_start.1 (fun _ => []) "banana".data (by decide)

/-- C5: an iteration whose transcript is empty leaves the listening
flag unchanged and makes no ChatClient and no Speaker call, in both
the listening and the paused state. -/
theorem empty_transcript_is_noop :
    ∀ (llm : List Char → List Char) (l : Bool), loopStep llm l [] = (l, []) := by
  intro llm l
  cases l <;> rfl

/-- C6: given state `Listening` and transcript "start", the state
remains `Listening` and no acknowledgement is spoken: the iteration
takes the chat path, so its only Speaker call carries the LLM reply,
not the fixed resume acknowledgement (the Start wake word has effect
only while `Paused`). -/
theorem start_while_listening_stays_listening :
    ∀ llm : List Char → List Char,
      loopStep llm true "start".data =
        (true, [Call.chat "start".data, Call.speak (llm "start".data)]) := by
  intro llm
  rfl

/-- C7 (counterexample): `query_llm` raises precisely what
`raise_for_status` raises on — 4xx/5xx — not on every non-2xx status:
a 304 response whose body still parses to a reply content returns that
reply instead of propagating an error. -/
theorem chat_304_with_body_returns_reply :
    is2xx 304 = false ∧
    (query_llm [] "hi".data (ChatOutcome.response 304 (some "ok".data))).2
      = Except.ok "ok".data := by
  constructor
  · rfl
  · rfl

/-- C7 (amended): on transport failure, or on a 4xx/5xx HTTP status
(exactly what `raise_for_status` raises on), the error propagates out
of `query_llm` as a fatal exception with no local recovery, and this
is the one HTTP-request path in the system without containment: the
STT request's failures are contained inside `process_voice_input`
(empty transcript), and a non-200 TTS status is contained inside
`text_to_speech` (logged, no exception). -/
theorem chat_errors_propagate_uncontained :
    (∀ (u p : List Char),
      (query_llm u p ChatOutcome.transportError).2
        = Except.error ChatRaise.transport) ∧
    (∀ (u p : List Char) (status : Nat) (content : Option (List Char)),
      raiseForStatus status = true →
      (query_llm u p (ChatOutcome.response status content)).2
        = Except.error (ChatRaise.httpStatus status)) ∧
    (∀ env : CaptureEnv, env.micOpenFails = false → env.ambientFails = false →
      (process_voice_input env).isOk = true) ∧
    ∀ (status : Nat) (pb : Bool), status ≠ 200 →
      (text_to_speech status pb).raised = false := by
  refine ⟨fun u p => rfl, ?_, ?_, ?_⟩
  · intro u p status content h
    simp [query_llm, h]
  · intro env h1 h2
    cases hl : env.listenFails
    · cases ho : env.sttOutcome with
      | transportError => simp [process_voice_input, h1, h2, hl, ho, Except.isOk, Except.toBool]
      | response status body =>
        by_cases hr : raiseForStatus status
        · simp [process_voice_input, h1, h2, hl, ho, hr, Except.isOk, Except.toBool]
        · simp [process_voice_input, h1, h2, hl, ho, hr, Except.isOk, Except.toBool]
    · simp [process_voice_input, h1, h2, hl, Except.isOk, Except.toBool]
  · intro status pb h
    have hb : (status == 200) = false := by simpa using h
    simp [text_to_speech, hb]

/-- C7 (witness): the amended theorem applied at a 500 chat response,
at a capture environment whose STT request fails, and at a 404 TTS
response. -/
theorem chat_errors_propagate_uncontained_witness :
    (query_llm [] "hi".data (ChatOutcome.response 500 none)).2
        = Except.error (ChatRaise.httpStatus 500) ∧
    (process_voice_input
        ⟨false, false, false, TextHttpOutcome.transportError⟩).isOk = true ∧
    (text_to_speech 404 false).raised = false :=
  ⟨chat_errors_propagate_uncontained.2.1 [] "hi".data 500 none (by decide),
   chat_errors_propagate_uncontained.2.2.1
     ⟨false, false, false, TextHttpOutcome.transportError⟩ rfl rfl,
   chat_errors_propagate_uncontained.2.2.2 404 false (by decide)⟩

/-- C8 (code evaluation): after a 200 TTS response, `text_to_speech`
unlinks `speech.wav` only on the successful-playback path; when
decoding or playback raises, the exception escapes and the temporary
file is left on disk, because no cleanup block guards the unlink. -/
theorem tts_playback_failure_leaves_temp_file :
    text_to_speech 200 true = ⟨true, false, true⟩ ∧
    text_to_speech 200 false = ⟨false, true, false⟩ := by
  constructor
  · rfl
  · rfl

/-- C9 (counterexample): `process_voice_input` can raise to its
caller: a device error while opening the microphone — before the
`try` around `recognizer.listen` — propagates instead of being logged
and turned into the empty string. -/
theorem capture_device_error_raises :
    process_voice_input ⟨true, false, false, TextHttpOutcome.transportError⟩
      = Except.error CaptureRaise.micOpen := by
  rfl

/-- C9 (amended): failures raised while listening for speech (a
timeout with no speech onset, or a device error inside
`recognizer.listen`) and all STT-request failures are contained:
logged and reported as the empty string, never raised — but device
errors while opening the microphone or during ambient-noise
calibration, which happen before the `try`, propagate to the
caller. -/
theorem capture_contained_inside_listen :
    (∀ env : CaptureEnv, env.micOpenFails = false → env.ambientFails = false →
      ∃ t, process_voice_input env = Except.ok t) ∧
    ∀ env : CaptureEnv, env.micOpenFails = false → env.ambientFails = false →
      env.listenFails = true → process_voice_input env = Except.ok [] := by
  constructor
  · intro env h1 h2
    cases hl : env.listenFails
    · cases ho : env.sttOutcome with
      | transportError => exact ⟨[], by simp [process_voice_input, h1, h2, hl, ho]⟩
      | response status body =>
        by_cases hr : raiseForStatus status
        · exact ⟨[], by simp [process_voice_input, h1, h2, hl, ho, hr]⟩
        · exact ⟨pyStrip body, by simp [process_voice_input, h1, h2, hl, ho, hr]⟩
    · exact ⟨[], by simp [process_voice_input, h1, h2, hl]⟩
  · intro env h1 h2 h3
    simp [process_voice_input, h1, h2, h3]

/-- C9 (witness): the containment component applied at an environment
whose `listen` call fails. -/
theorem capture_contained_inside_listen_witness :
    process_voice_input ⟨false, false, true, TextHttpOutcome.transportError⟩
      = Except.ok [] :=
  capture_contained_inside_listen.2
    ⟨false, false, true, TextHttpOutcome.transportError⟩ rfl rfl rfl

end OpenVC
